import Mathlib

/-!
Verification of the gentrade backtest orchestration and verification pipeline.

This file is a shallow embedding, in Lean 4, of the core components of the
repository:

* `app/util/ft/verification/utils.py` — `TimeframeUtils`
  (timeframe lookup table, date-range parsing, expected-candle count, gap scan);
* `app/util/ft/verification/log_parser.py` — `DockerLogParser`
  (line reconstruction, per-line parsing, severity bucketing with
  deduplication);
* `app/util/ft/verification/data_download_verifier.py` — `DataDownloadVerifier`
  (three-stage verification: execution result, file existence, per-file
  integrity and date-range coverage);
* `app/util/ft/ft_base.py` — `FTBase.run_docker_command`
  (container execution gateway: log-artifact parse/delete and structured
  error construction);
* `app/util/ft/ft_backtesting.py` — `FTBacktesting.run_backtest` and
  result-name resolution;
* `app/tasks/backtests.py` — `run_backtest_task` (job status transitions).

Machine integers are modelled as `Int`/`Nat`; Python `int(x / y)` on
nonnegative quantities is `Int.tdiv` (truncation toward zero, matching
Python `int()` applied to an exact quotient); `datetime` values are epoch
seconds (`Int`); `timedelta` values are second counts (`Int`).  Fallible
Python code (raising) is embedded with `Option`/`Except`.
-/

namespace GenTrade

/-- Characters of a Python string.  All text processed by the log parsers is
manipulated at character level so that every operation is kernel-computable. -/
abbrev Str := List Char

/-- Python `\s` for the ASCII range (space, tab, newline, vertical tab,
form feed, carriage return), as used by `str.strip` and the `\s*` regex
pieces of `DockerLogParser`. -/
def isPySpace (c : Char) : Bool :=
  c = ' ' || c = '\t' || c = '\n' || c = '\x0b' || c = '\x0c' || c = '\r'

/-- Python `str.strip()`: drop leading and trailing whitespace. -/
def pyStrip (s : Str) : Str :=
  ((s.dropWhile isPySpace).reverse.dropWhile isPySpace).reverse

/-- Python substring test `sub in s`. -/
def containsSub (sub s : Str) : Bool :=
  (List.range (s.length + 1)).any (fun i => sub.isPrefixOf (s.drop i))

/-- Python substring test on `String` values. -/
def strContainsSub (sub s : String) : Bool :=
  containsSub sub.toList s.toList

/-- Python `str.lower()` (ASCII). -/
def pyLower (s : Str) : Str := s.map Char.toLower

/-- The double-quote character, as split on by the result-name extraction. -/
def quoteChar : Char := Char.ofNat 34

/-- Numeric value of a digit string (the pieces matched by `\d{k}`). -/
def digitsToNat (s : Str) : Nat :=
  s.foldl (fun acc c => acc * 10 + (c.toNat - 48)) 0

/-! ## TimeframeUtils (`app/util/ft/verification/utils.py`) -/

/-- The `TIMEFRAME_MAP` lookup table, with each `timedelta` rendered as a
second count (`1M` is the approximate 30 days of the source). -/
def TIMEFRAME_MAP : List (String × Int) :=
  [("1m", 60), ("3m", 180), ("5m", 300), ("15m", 900), ("30m", 1800),
   ("1h", 3600), ("2h", 7200), ("4h", 14400), ("6h", 21600), ("8h", 28800),
   ("12h", 43200), ("1d", 86400), ("3d", 259200), ("1w", 604800),
   ("1M", 2592000)]

/-- `TimeframeUtils.parse_timeframe`: dictionary lookup in `TIMEFRAME_MAP`;
an unknown timeframe raises `ValueError`, embedded as `none`. -/
def parse_timeframe (timeframe : String) : Option Int :=
  TIMEFRAME_MAP.lookup timeframe

/-- Leap-year rule of the Gregorian calendar (as implemented by Python
`datetime`). -/
def isLeapYear (y : Nat) : Bool :=
  y % 4 = 0 && (y % 100 ≠ 0 || y % 400 = 0)

/-- Days in a month, for `datetime` day-of-month validation. -/
def daysInMonth (y m : Nat) : Nat :=
  if m = 2 then (if isLeapYear y then 29 else 28)
  else if m = 4 || m = 6 || m = 9 || m = 11 then 30
  else 31

/-- Validity of a `(year, month, day)` triple for the `datetime`
constructor (`MINYEAR = 1`, `MAXYEAR = 9999`). -/
def validYmd (y m d : Nat) : Bool :=
  1 ≤ y && y ≤ 9999 && 1 ≤ m && m ≤ 12 && 1 ≤ d && d ≤ daysInMonth y m

/-- Days since 1970-01-01 of a civil date (standard days-from-civil
computation; all divisions act on nonnegative operands for valid dates). -/
def daysFromCivil (y m d : Int) : Int :=
  let yy := if m ≤ 2 then y - 1 else y
  let era := Int.tdiv yy 400
  let yoe := yy - era * 400
  let mp := Int.tmod (m + 9) 12
  let doy := Int.tdiv (153 * mp + 2) 5 + d - 1
  let doe := yoe * 365 + Int.tdiv yoe 4 - Int.tdiv yoe 100 + doy
  era * 146097 + doe - 719468

/-- Epoch seconds at midnight of a civil date. -/
def ymdToEpochSeconds (y m d : Nat) : Int :=
  86400 * daysFromCivil y m d

/-- Digit split of `strptime(s, "%Y%m%d")`: a greedy 4-digit year, then a
1–2 digit month and a 1–2 digit day consuming the whole string (so inputs
of length 6, 7 or 8 match, the month taking two digits whenever enough
remain). -/
def matchYmd (s : Str) : Option (Nat × Nat × Nat) :=
  if s.all Char.isDigit then
    if s.length = 8 then
      some (digitsToNat (s.take 4), digitsToNat ((s.drop 4).take 2),
            digitsToNat (s.drop 6))
    else if s.length = 7 then
      some (digitsToNat (s.take 4), digitsToNat ((s.drop 4).take 2),
            digitsToNat (s.drop 6))
    else if s.length = 6 then
      some (digitsToNat (s.take 4), digitsToNat ((s.drop 4).take 1),
            digitsToNat (s.drop 5))
    else none
  else none

/-- `datetime.strptime(s, "%Y%m%d")`: digit match plus range validation,
yielding epoch seconds of that midnight; `ValueError` is `none`. -/
def strptimeYmd (s : Str) : Option Int :=
  match matchYmd s with
  | some (y, m, d) => if validYmd y m d then some (ymdToEpochSeconds y m d) else none
  | none => none

/-- `TimeframeUtils.parse_date_range`: split on `"-"` into exactly two
parts, parse each as `%Y%m%d`, and move the end date to 23:59:59 of its
day.  Any `ValueError` (wrong number of parts, malformed date) is `none`. -/
def parse_date_range (date_range : String) : Option (Int × Int) :=
  match date_range.toList.splitOn '-' with
  | [a, b] =>
    match strptimeYmd a, strptimeYmd b with
    | some s, some e => some (s, e + (23 * 3600 + 59 * 60 + 59))
    | _, _ => none
  | _ => none

/-- `TimeframeUtils.calculate_expected_candles`:
`int(total_time / interval) + 1` over the parsed timeframe. -/
def calculate_expected_candles (start_date end_date : Int) (timeframe : String) :
    Option Int :=
  (parse_timeframe timeframe).map
    (fun interval => Int.tdiv (end_date - start_date) interval + 1)

/-- `pandas.sort_values("date")` on the date column: a stable sort of the
timestamp series. -/
def sortDates (dates : List Int) : List Int :=
  dates.insertionSort (· ≤ ·)

/-- The consecutive-delta scan inside `TimeframeUtils.find_gaps`: a pair of
consecutive timestamps is reported when `diff > interval` and
`int(diff / interval) - 1 >= min_gap_size`. -/
def gapScan (interval min_gap_size : Int) : List Int → List (Int × Int × Int)
  | a :: b :: rest =>
    let diff := b - a
    if diff > interval then
      let missing_candles := Int.tdiv diff interval - 1
      if missing_candles ≥ min_gap_size then
        (a, b, missing_candles) :: gapScan interval min_gap_size (b :: rest)
      else gapScan interval min_gap_size (b :: rest)
    else gapScan interval min_gap_size (b :: rest)
  | _ => []

/-- `TimeframeUtils.find_gaps`: sort the series by date, parse the
timeframe (a `ValueError` is `none`), and run the consecutive-delta scan. -/
def find_gaps (dates : List Int) (timeframe : String) (min_gap_size : Int) :
    Option (List (Int × Int × Int)) :=
  (parse_timeframe timeframe).map
    (fun interval => gapScan interval min_gap_size (sortDates dates))

/-! ## DockerLogParser (`app/util/ft/verification/log_parser.py`) -/

/-- Timestamp of a parsed docker log line, as produced by
`datetime.strptime(ts, "%Y-%m-%d %H:%M:%S,%f")`.  Only equality of
timestamps is consumed downstream (deduplication), so the parsed fields
are kept as they are. -/
structure PyTimestamp where
  year : Nat
  month : Nat
  day : Nat
  hour : Nat
  minute : Nat
  second : Nat
  millis : Nat
deriving DecidableEq, Repr

/-- `LogEntry` of the docker log module.  `details` is always `None` in
`parse_log_line` and is omitted. -/
structure LogEntry where
  timestamp : PyTimestamp
  level : Str
  component : Str
  message : Str
deriving DecidableEq, Repr

/-- One character test of the `TIMESTAMP_PATTERN` regex
`^\d{4}-\d{2}-\d{2} \d{2}:\d{2}:\d{2},\d{3}` (23 characters). -/
def tsShapeCharOk (i : Nat) (c : Char) : Bool :=
  if i = 4 || i = 7 then c = '-'
  else if i = 10 then c = ' '
  else if i = 13 || i = 16 then c = ':'
  else if i = 19 then c = ','
  else c.isDigit

/-- `TIMESTAMP_PATTERN.match(line)`: the 23-character timestamp shape is a
prefix of the line (Python `re.match` anchors at the start only). -/
def tsShapeMatches (s : Str) : Bool :=
  s.length ≥ 23 && ((s.take 23).enum.all (fun p => tsShapeCharOk p.1 p.2))

/-- Range validation performed by `strptime("%Y-%m-%d %H:%M:%S,%f")` and the
`datetime` constructor on a shape-matching timestamp. -/
def parseTs (s : Str) : Option PyTimestamp :=
  let y := digitsToNat (s.take 4)
  let mo := digitsToNat ((s.drop 5).take 2)
  let d := digitsToNat ((s.drop 8).take 2)
  let h := digitsToNat ((s.drop 11).take 2)
  let mi := digitsToNat ((s.drop 14).take 2)
  let se := digitsToNat ((s.drop 17).take 2)
  let ms := digitsToNat ((s.drop 20).take 3)
  if validYmd y mo d && h ≤ 23 && mi ≤ 59 && se ≤ 59 then
    some ⟨y, mo, d, h, mi, se, ms⟩
  else none

/-- The field piece `[^-]+` followed by a literal `-` of `LOG_LINE_PATTERN`:
the characters before the next hyphen (at least one is required), and the
remainder after that hyphen.  Leading whitespace absorbed by an adjacent
`\s*` ends up stripped either way, since every captured group is passed
through `.strip()` afterwards. -/
def splitAtHyphen (s : Str) : Option (Str × Str) :=
  let before := s.takeWhile (· ≠ '-')
  let rest := s.dropWhile (· ≠ '-')
  match rest with
  | '-' :: after => if before.isEmpty then none else some (before, after)
  | _ => none

/-- `DockerLogParser.parse_log_line`: skip blank lines, match
`LOG_LINE_PATTERN`
(`(?P<timestamp>…)\s*-\s*(?P<component>[^-]+)-\s*(?P<level>[^-]+)-\s*(?P<message>.*)`),
validate the timestamp, and strip every captured group.  Any failure
returns `None`. -/
def parse_log_line (line : Str) : Option LogEntry :=
  if (pyStrip line).isEmpty then none
  else if ¬ tsShapeMatches line then none
  else
    let tsCs := line.take 23
    let rest := (line.drop 23).dropWhile isPySpace
    match rest with
    | '-' :: afterDash =>
      match splitAtHyphen afterDash with
      | some (compRaw, afterComp) =>
        match splitAtHyphen afterComp with
        | some (levelRaw, msgRest) =>
          match parseTs tsCs with
          | some ts =>
            some ⟨ts, pyStrip levelRaw, pyStrip compRaw, pyStrip msgRest⟩
          | none => none
        | none => none
      | none => none
    | _ => none

/-- The multi-line reconstruction loop of `process_docker_output.process_lines`:
stripped nonblank lines are grouped into complete log entries, a new group
starting at each line matching `TIMESTAMP_PATTERN`; grouped lines are
joined with a single space. -/
def groupLines : List Str → List Str → List Str
  | [], current => if current.isEmpty then [] else [List.intercalate [' '] current]
  | l :: rest, current =>
    let l' := pyStrip l
    if l'.isEmpty then groupLines rest current
    else if tsShapeMatches l' then
      if current.isEmpty then groupLines rest [l']
      else List.intercalate [' '] current :: groupLines rest [l']
    else groupLines rest (current ++ [l'])

/-- `DockerLogSummary`: warning and error entries with their counters. -/
structure DockerLogSummary where
  warnings : List LogEntry := []
  errors : List LogEntry := []
  total_warnings : Nat := 0
  total_errors : Nat := 0
deriving DecidableEq, Repr

/-- `is_duplicate` of `DockerLogParser._process_entry`: an existing entry
with the same timestamp, component and message (the level is not
compared). -/
def is_duplicate (e : LogEntry) (entries : List LogEntry) : Bool :=
  entries.any (fun x =>
    x.timestamp == e.timestamp && x.component == e.component &&
      x.message == e.message)

/-- The level marker `"WARNING"`. -/
def WARNING_MARK : Str := "WARNING".toList

/-- The level marker `"ERROR"`. -/
def ERROR_MARK : Str := "ERROR".toList

/-- `DockerLogParser._process_entry`: bucket by substring of the level
(`"WARNING" in level`, else `"ERROR" in level`), dropping duplicates and
incrementing the matching counter only on insertion. -/
def process_entry (s : DockerLogSummary) (e : LogEntry) : DockerLogSummary :=
  if containsSub WARNING_MARK e.level then
    if is_duplicate e s.warnings then s
    else { s with warnings := s.warnings ++ [e],
                  total_warnings := s.total_warnings + 1 }
  else if containsSub ERROR_MARK e.level then
    if is_duplicate e s.errors then s
    else { s with errors := s.errors ++ [e],
                  total_errors := s.total_errors + 1 }
  else s

/-- The complete log entries parsed out of one output stream (`splitlines`,
reconstruction, `parse_log_line`; unparsable candidates are skipped).
Lines are taken to be LF-terminated, modelling `str.splitlines`. -/
def parsedEntriesOf (txt : String) : List LogEntry :=
  (groupLines (txt.toList.splitOn '\n') []).filterMap parse_log_line

/-- `DockerLogParser.process_docker_output`: reset the summary, process the
entries of stderr first, then those of stdout. -/
def process_docker_output (stderr stdout : String) : DockerLogSummary :=
  (parsedEntriesOf stderr ++ parsedEntriesOf stdout).foldl process_entry {}

/-- All well-formed entries of an input pair, in processing order. -/
def parsedEntries (stderr stdout : String) : List LogEntry :=
  parsedEntriesOf stderr ++ parsedEntriesOf stdout

/-- Number of entries a summary holds. -/
def summaryEntryCount (s : DockerLogSummary) : Nat :=
  s.warnings.length + s.errors.length

/-! ## Container execution gateway (`app/util/ft/ft_base.py`)

`FTBase.run_docker_command` consumes `JsonlLogParser` and `LogSummary`,
which `ft_base.py` imports from the verification log module; that class is
absent from the sources, so its data shape and query surface are modelled
from the spec (sections 3, 4.2 and 6). -/

/-- Modelled from the spec: one structured jsonl log record, with at least
`timestamp`, `level`, `name` (component) and `message`; only `name` and
`message` are consumed by the code embedded here. -/
structure FtLogEntry where
  name : String
  message : String
deriving DecidableEq, Repr

/-- Modelled from the spec: the `LogSummary` class of the jsonl log parser
(absent from the sources) — ordered entry lists per severity
(info/warning/error) with counts per severity. -/
structure LogSummary where
  infos : List FtLogEntry := []
  warnings : List FtLogEntry := []
  errors : List FtLogEntry := []
  total_warnings : Nat := 0
  total_errors : Nat := 0
deriving DecidableEq, Repr

/-- Modelled from the spec: `JsonlLogParser.get_entries_by_component`
(absent from the sources) — the query surface "filter by originating
component" over the summary's entries. -/
def get_entries_by_component (s : LogSummary) (component : String) :
    List FtLogEntry :=
  (s.infos ++ s.warnings ++ s.errors).filter (fun e => e.name == component)

/-- Outcome of `DockerClient.compose.run`: normal return, or a raised
`DockerException` carrying the runtime's exit code / stdout / stderr. -/
inductive DockerRunResult where
  | ok
  | fail (exitCode : Int) (stdout stderr : String)
deriving DecidableEq, Repr

/-- Filesystem side effects of `run_docker_command` on the per-invocation
jsonl log artifact. -/
inductive FsAction where
  | parseLogFile
  | removeLogFile
deriving DecidableEq, Repr

/-- How a `run_docker_command` call ends: normal return of the parsed
summary; a raised `PickleableDockerException` with its message
`f"{errors[0].name}: {errors[0].message}"` and exit code; or the Python
`IndexError` raised by `log_summary.errors[0]` when the parsed log has no
error entries. -/
inductive GatewayOutcome where
  | success (summary : LogSummary)
  | structuredError (message : String) (exitCode : Int)
  | indexError
deriving DecidableEq, Repr

/-- `FTBase.run_docker_command`, parametrized by the container run outcome
and by the summary the jsonl log parse produces.  Both the `try` branch and
the `except DockerException` branch parse the attached log artifact and
then delete it; the failure branch then reads `log_summary.errors[0]`
(first in the `logger.error` call) before raising the structured error. -/
def run_docker_command (runResult : DockerRunResult) (parsed : LogSummary) :
    List FsAction × GatewayOutcome :=
  match runResult with
  | .ok => ([.parseLogFile, .removeLogFile], .success parsed)
  | .fail exitCode _ _ =>
    ([.parseLogFile, .removeLogFile],
      match parsed.errors with
      | [] => .indexError
      | e :: _ => .structuredError (e.name ++ ": " ++ e.message) exitCode)

/-! ## Backtest orchestration (`app/util/ft/ft_backtesting.py`) -/

/-- Python `str.replace(pat, "")` for a nonempty pattern: remove every
non-overlapping occurrence, scanning left to right. -/
def removeAll (pat : Str) : Str → Str
  | [] => []
  | c :: rest =>
    if pat ≠ [] ∧ pat.isPrefixOf (c :: rest) then
      -- consume the whole occurrence: one char now, the rest via `drop`
      removeAll pat (rest.drop (pat.length - 1))
    else c :: removeAll pat rest
termination_by s => s.length
decreasing_by
  all_goals simp only [List.length_drop, List.length_cons]
  all_goals omega

/-- `os.path.basename` for slash-separated paths: the part after the last
`/`. -/
def pyBasename (s : Str) : Str :=
  (s.splitOn '/').getLastD []

/-- Result of `FTBacktesting._extract_backtest_result_name`: the extracted
name, `None` when no `freqtrade.misc` entry contains `"dumping json to"`,
or a raised `IndexError` when the matching entry's message holds no quoted
path (`message.split('"')[1]`). -/
inductive ExtractOutcome where
  | found (name : Str)
  | notFound
  | crashed
deriving DecidableEq, Repr

/-- `FTBacktesting._extract_backtest_result_name`: first
`freqtrade.misc` entry whose lowercased message contains
`"dumping json to"`; from it, the text between the first two double quotes,
its basename, with every `".meta.json"` occurrence removed. -/
def extract_backtest_result_name (log_summary : LogSummary) : ExtractOutcome :=
  match (get_entries_by_component log_summary "freqtrade.misc").find?
      (fun e => containsSub "dumping json to".toList (pyLower e.message.toList)) with
  | none => .notFound
  | some e =>
    match e.message.toList.splitOn quoteChar with
    | _ :: quoted :: _ => .found (removeAll ".meta.json".toList (pyBasename quoted))
    | _ => .crashed

/-- How `FTBacktesting.run_backtest` ends: a raised exception
(`ValueError` on invalid inputs, a propagated `PickleableDockerException`
or `IndexError`), or a normal return — `some name` after a result artifact
was located and parsed, `none` (Python `None`) when no result was
located. -/
inductive BacktestRun where
  | raised
  | completed (resolvedResult : Option Str)
deriving DecidableEq, Repr

/-- `FTBacktesting.run_backtest`, parametrized by input validation, the
container run outcome, the parsed log summary and whether a file exists at
the requested result path (that existence check only selects a log
message).  When no result name is found in the log the function returns
`None` without raising. -/
def run_backtest (strategyFileValid dateRangeNonempty : Bool)
    (runResult : DockerRunResult) (parsed : LogSummary)
    (resultFileExists : Bool) : BacktestRun :=
  if !strategyFileValid then .raised
  else if !dateRangeNonempty then .raised
  else
    match (run_docker_command runResult parsed).2 with
    | .success summary =>
      match extract_backtest_result_name summary with
      | .found name => .completed (some name)
      | .notFound =>
        -- only `logger.error` depends on `resultFileExists`; the return
        -- value is `None` either way
        match resultFileExists with
        | _ => .completed none
      | .crashed => .raised
    | .structuredError _ _ => .raised
    | .indexError => .raised

/-! ## Async task bridge (`app/tasks/backtests.py`) -/

/-- How `run_backtest_task` hands control back to the task framework. -/
inductive TaskEnd where
  | successEnvelope
  | failureEnvelope
  | reraised
deriving DecidableEq, Repr

/-- Observable effect of one `run_backtest_task` execution: the sequence of
status values written to the job record, the kind of return, and — when the
job was marked `finished` — the results payload stored with it. -/
structure TaskResult where
  statuses : List String
  finish : TaskEnd
  storedResults : Option (Option Str) := none
deriving DecidableEq, Repr

/-- `run_backtest_task`, parametrized by strategy/backtest lookup success,
the download verification outcome and the backtest run outcome.  The
strategy lookup precedes the `try` block (no status write on failure); all
other failures funnel through the `except` handler which writes `failed`
and re-raises; a download verification failure writes `failed` and returns
a failure envelope; a completed backtest — whatever its returned payload,
including `None` — writes `finished` with that payload. -/
def run_backtest_task (strategyFound backtestFound downloadSuccess : Bool)
    (runOutcome : BacktestRun) : TaskResult :=
  if !strategyFound then ⟨[], .reraised, none⟩
  else if !backtestFound then ⟨["failed"], .reraised, none⟩
  else if !downloadSuccess then
    ⟨["downloading_data", "failed"], .failureEnvelope, none⟩
  else
    match runOutcome with
    | .completed payload =>
      ⟨["downloading_data", "running", "finished"], .successEnvelope, some payload⟩
    | .raised => ⟨["downloading_data", "running", "failed"], .reraised, none⟩

/-! ## Market data verifier (`app/util/ft/verification/data_download_verifier.py`)

The verifier's exceptions (`app/util/ft/verification/exceptions.py`) carry a
message and a details dictionary; the only detail keys the code writes are
`total_errors` (docker stage) and `missing_files` (file stage), kept here as
constructor fields.  `ValueError`-like failures arising inside
`verify_data_integrity`'s `try` block are wrapped into `DataIntegrityError`
by its generic handler. -/

/-- Exceptions raised inside the verifier. -/
inductive VerifError where
  | dockerExecutionError (message : String) (total_errors : Nat)
  | fileVerificationError (message : String) (missing_files : List String)
  | dataIntegrityError (message : String)
  | valueError (message : String)
deriving DecidableEq, Repr

/-- Python class name of a verifier exception (`e.__class__.__name__`). -/
def errClassName : VerifError → String
  | .dockerExecutionError .. => "DockerExecutionError"
  | .fileVerificationError .. => "FileVerificationError"
  | .dataIntegrityError .. => "DataIntegrityError"
  | .valueError .. => "ValueError"

/-- Python `str(e)` of a verifier exception: the message it was
constructed with. -/
def errMessage : VerifError → String
  | .dockerExecutionError m _ => m
  | .fileVerificationError m _ => m
  | .dataIntegrityError m => m
  | .valueError m => m

/-- A market data file, as read by `pd.read_feather`: its column names and
the values of its `date` column (one per row, as epoch seconds).  Files
lacking a `date` column never reach the code that reads the dates — the
required-column check rejects them first. -/
structure DataFile where
  columns : List String
  dates : List Int
deriving DecidableEq, Repr

/-- The on-disk state the verifier runs against: the data file found at
each full path, `none` where no file exists. -/
def FileSystem := String → Option DataFile

/-- `pathlib`'s `base_dir / file_path` for the relative paths in play. -/
def joinPath (base file_path : String) : String :=
  base ++ "/" ++ file_path

/-- One `DataGap` record (`schemas.py`). -/
structure DataGap where
  start_date : Int
  end_date : Int
  missing_candles : Int
  timeframe : String
deriving DecidableEq, Repr

/-- `DateRangeInfo` (`schemas.py`).  `coverage_percentage` is a float in the
source; it is kept here as the exact fraction
`coverage_num / coverage_den`. -/
structure DateRangeInfo where
  requested_start : Int
  requested_end : Int
  actual_start : Int
  actual_end : Int
  coverage_num : Int
  coverage_den : Int
  has_extra_data : Bool
  gaps : List DataGap
  candles_expected : Int
  candles_found : Int
deriving DecidableEq, Repr

/-- The comparison `coverage_percentage < 100` on the exact fraction
(`coverage_den` is positive on every reachable path). -/
def coverageBelowHundred (info : DateRangeInfo) : Bool :=
  if 0 < info.coverage_den then info.coverage_num < 100 * info.coverage_den
  else info.coverage_num > 100 * info.coverage_den

/-- The non-fatal warnings `verify_download` collects (their exact string
rendering, including the float formatting of the coverage value, is
abstracted into constructors). -/
inductive VWarning where
  | gapsFound (count : Nat) (file : String)
  | extraData (file : String)
  | lowCoverage (file : String)
deriving DecidableEq, Repr

/-- `VerificationResult` (`schemas.py`), without the wall-clock
`verification_time` field. -/
structure VerificationResult where
  success : Bool
  error_type : Option String := none
  error_message : Option String := none
  verified_files : List String := []
  date_range_info : Option (List (String × DateRangeInfo)) := none
  warnings : List VWarning := []
deriving DecidableEq, Repr

/-- `DataDownloadVerifier.verify_docker_execution`: fail with
`DockerExecutionError` iff the prior summary has any error entry (warnings
are only logged). -/
def verify_docker_execution (docker_result : LogSummary) :
    Except VerifError Unit :=
  if docker_result.errors.isEmpty then .ok ()
  else .error (.dockerExecutionError "Docker command failed with error"
    docker_result.total_errors)

/-- The loop of `DataDownloadVerifier.verify_files_existence`: partition
the manifest into missing relative paths and verified full paths, in
manifest order. -/
def filesExistenceLoop (fs : FileSystem) (base_dir : String) :
    List String → List String → List String → List String × List String
  | [], missing, verified => (missing, verified)
  | f :: rest, missing, verified =>
    if (fs (joinPath base_dir f)).isSome then
      filesExistenceLoop fs base_dir rest missing (verified ++ [joinPath base_dir f])
    else filesExistenceLoop fs base_dir rest (missing ++ [f]) verified

/-- `DataDownloadVerifier.verify_files_existence`: on any missing file,
raise a single `FileVerificationError` whose details carry every missing
path; otherwise return the verified full paths. -/
def verify_files_existence (fs : FileSystem) (base_dir : String)
    (expected_files : List String) : Except VerifError (List String) :=
  match filesExistenceLoop fs base_dir expected_files [] [] with
  | ([], verified) => .ok verified
  | (missing, _) =>
    .error (.fileVerificationError "Some expected files are missing" missing)

/-- Minimum of the `date` column (`df["date"].min()`), defined on the
nonempty series the callers feed it. -/
def colMin (dates : List Int) : Int :=
  dates.foldl min (dates.headD 0)

/-- Maximum of the `date` column (`df["date"].max()`). -/
def colMax (dates : List Int) : Int :=
  dates.foldl max (dates.headD 0)

/-- `DataDownloadVerifier.verify_date_range`: parse the requested range and
timeframe, compare the found row count against the expected candle count
(raising `DataIntegrityError` on a shortfall), then collect gaps, coverage
and the out-of-range flag. -/
def verify_date_range (dates : List Int) (date_range timeframe file_path : String) :
    Except VerifError DateRangeInfo :=
  match parse_date_range date_range with
  | none => .error (.valueError ("Invalid date range format: " ++ date_range ++
      ". Expected format: YYYYMMDD-YYYYMMDD"))
  | some (requested_start, requested_end) =>
    let actual_start := colMin dates
    let actual_end := colMax dates
    match calculate_expected_candles requested_start requested_end timeframe with
    | none => .error (.valueError ("Invalid timeframe format: " ++ timeframe))
    | some candles_expected =>
      let candles_found : Int := dates.length
      if candles_found < candles_expected then
        .error (.dataIntegrityError ("Insufficient candles in " ++ file_path ++
          ": expected " ++ toString candles_expected ++ " candles, found " ++
          toString candles_found))
      else
        match find_gaps dates timeframe 2 with
        | none => .error (.valueError ("Invalid timeframe format: " ++ timeframe))
        | some gapTriples =>
          let data_gaps := gapTriples.map
            (fun t => DataGap.mk t.1 t.2.1 t.2.2 timeframe)
          let total_missing := (data_gaps.map (·.missing_candles)).foldl (· + ·) 0
          if candles_expected = 0 then
            .error (.valueError "division by zero")
          else
            .ok { requested_start := requested_start
                  requested_end := requested_end
                  actual_start := actual_start
                  actual_end := actual_end
                  coverage_num := (candles_expected - total_missing) * 100
                  coverage_den := candles_expected
                  has_extra_data := actual_start < requested_start ||
                    actual_end > requested_end
                  gaps := data_gaps
                  candles_expected := candles_expected
                  candles_found := candles_found }

/-- The required OHLCV columns of `verify_data_integrity`. -/
def REQUIRED_COLUMNS : List String :=
  ["date", "open", "high", "low", "close", "volume"]

/-- `DataDownloadVerifier.verify_data_integrity`: read the file, reject
empty data and missing required columns, then (when both a date range and a
timeframe were supplied) run the date-range verification.  Its generic
handler re-raises `DataIntegrityError` untouched and wraps every other
exception into one. -/
def verify_data_integrity (fs : FileSystem) (file_path : String)
    (date_range timeframe : Option String) :
    Except VerifError (Option DateRangeInfo) :=
  let body : Except VerifError (Option DateRangeInfo) :=
    match fs file_path with
    | none => .error (.valueError ("read failed: " ++ file_path))
    | some df =>
      if df.dates.isEmpty then
        .error (.dataIntegrityError ("File " ++ file_path ++ " contains no data"))
      else if !(REQUIRED_COLUMNS.all (fun c => df.columns.contains c)) then
        .error (.dataIntegrityError ("File " ++ file_path ++
          " is missing required columns"))
      else
        match date_range, timeframe with
        | some dr, some tf => (verify_date_range df.dates dr tf file_path).map some
        | _, _ => .ok none
  match body with
  | .ok r => .ok r
  | .error (.dataIntegrityError m) => .error (.dataIntegrityError m)
  | .error _ =>
    .error (.dataIntegrityError ("Failed to verify data integrity for " ++ file_path))

/-- The warnings appended for one file's `DateRangeInfo` in
`verify_download`'s integrity loop. -/
def fileWarnings (file_path : String) (info : DateRangeInfo) : List VWarning :=
  (if info.gaps.isEmpty then [] else [.gapsFound info.gaps.length file_path]) ++
  (if info.has_extra_data then [.extraData file_path] else []) ++
  (if coverageBelowHundred info then [.lowCoverage file_path] else [])

/-- Stage 3 of `verify_download`: per verified file, pick the first
supplied timeframe whose `-tf-` marker occurs in the path, verify
integrity, and aggregate per-file range info and warnings in file order. -/
def integrityLoop (fs : FileSystem) (date_range : Option String)
    (timeframes : Option (List String)) :
    List String → Except VerifError (List (String × DateRangeInfo) × List VWarning)
  | [] => .ok ([], [])
  | fp :: rest => do
    let tf : Option String :=
      match timeframes with
      | some tfs => tfs.find? (fun t => strContainsSub ("-" ++ t ++ "-") fp)
      | none => none
    let info ← verify_data_integrity fs fp date_range tf
    let (restInfo, restWarnings) ← integrityLoop fs date_range timeframes rest
    match info with
    | some i => .ok ((fp, i) :: restInfo, fileWarnings fp i ++ restWarnings)
    | none => .ok (restInfo, restWarnings)

/-- Stage 1 of `verify_download`: the docker execution check runs only when
a prior summary was handed in. -/
def checkDockerStage (docker_result : Option LogSummary) : Except VerifError Unit :=
  match docker_result with
  | some dr => verify_docker_execution dr
  | none => .ok ()

/-- The `try` body of `DataDownloadVerifier.verify_download`. -/
def verify_download_core (fs : FileSystem) (base_dir : String)
    (docker_result : Option LogSummary) (expected_files : List String)
    (date_range : Option String) (timeframes : Option (List String)) :
    Except VerifError
      (List String × List (String × DateRangeInfo) × List VWarning) := do
  let _ ← checkDockerStage docker_result
  let verified ← verify_files_existence fs base_dir expected_files
  let (rangeInfo, warnings) ← integrityLoop fs date_range timeframes verified
  .ok (verified, rangeInfo, warnings)

/-- `DataDownloadVerifier.verify_download`: on success, the verified file
list, the per-file range info (`None` when empty, after `or None`) and the
warnings; on any of the three verification errors, a failure result with
the exception's class name and message and an empty verified list. -/
def verify_download (fs : FileSystem) (base_dir : String)
    (docker_result : Option LogSummary) (expected_files : List String)
    (date_range : Option String) (timeframes : Option (List String)) :
    VerificationResult :=
  match verify_download_core fs base_dir docker_result expected_files
      date_range timeframes with
  | .ok (verified, rangeInfo, warnings) =>
    { success := true
      verified_files := verified
      date_range_info := if rangeInfo.isEmpty then none else some rangeInfo
      warnings := warnings }
  | .error e =>
    { success := false
      error_type := some (errClassName e)
      error_message := some (errMessage e) }

/-! ## Claim-side definitions

These definitions restate, in Lean, what the specification's sentences say;
they are compared against the embedded code above. -/

/-- Spec formalization (C5): the gap triples the spec's rule predicts — for
each consecutive pair, report iff `floor(delta/duration) - 1 >= minGapSize`,
in series order. -/
def claimGapTriples (duration min_gap_size : Int) : List Int → List (Int × Int × Int)
  | a :: b :: rest =>
    if Int.fdiv (b - a) duration - 1 ≥ min_gap_size then
      (a, b, Int.fdiv (b - a) duration - 1) ::
        claimGapTriples duration min_gap_size (b :: rest)
    else claimGapTriples duration min_gap_size (b :: rest)
  | _ => []

/-- Deduplication key of a docker log entry: the fields `is_duplicate`
compares (timestamp, component, message — not the level). -/
def entryKey (e : LogEntry) : PyTimestamp × Str × Str :=
  (e.timestamp, e.component, e.message)

/-- Entries routed to the warnings bucket (`"WARNING" in level`). -/
def isWarnEntry (e : LogEntry) : Bool :=
  containsSub WARNING_MARK e.level

/-- Entries routed to the errors bucket (level not containing `WARNING`
but containing `ERROR`). -/
def isErrEntry (e : LogEntry) : Bool :=
  !containsSub WARNING_MARK e.level && containsSub ERROR_MARK e.level

/-- First-occurrence deduplication against an accumulated entry list:
exactly the retention discipline of `_process_entry` within one severity
bucket. -/
def dedupSeen (seen : List LogEntry) : List LogEntry → List LogEntry
  | [] => []
  | e :: rest =>
    if is_duplicate e seen then dedupSeen seen rest
    else e :: dedupSeen (seen ++ [e]) rest

/-! Witness fixtures: concrete inputs that the witness theorems evaluate
the embedded code on. -/

/-- A parsed jsonl summary with no `freqtrade.misc` dump message and no
error entries: an error-free backtest run that produced no locatable
result artifact. -/
def noDumpSummary : LogSummary :=
  { infos := [⟨"freqtrade.worker", "Backtest finished"⟩]
    warnings := []
    errors := []
    total_warnings := 0
    total_errors := 0 }

/-- A parsed jsonl summary with one error entry. -/
def oneErrorSummary : LogSummary :=
  { infos := []
    warnings := []
    errors := [⟨"freqtrade.commands", "Config validation failed"⟩]
    total_warnings := 0
    total_errors := 1 }

/-- A data file with the required OHLCV columns and 20 hourly rows. -/
def shortDataFile : DataFile :=
  { columns := REQUIRED_COLUMNS
    dates := (List.range 20).map (fun i => (i : Int) * 3600) }

/-- An on-disk state holding only the 20-row file at the spot BTC path. -/
def shortFileSystem : FileSystem :=
  fun p => if p = "ft_userdata/spot/BTC_USDT-1h-spot.feather" then some shortDataFile
    else none

/-- A data file with the required columns and a single row at the epoch. -/
def oneRowDataFile : DataFile :=
  { columns := REQUIRED_COLUMNS
    dates := [0] }

/-- An on-disk state holding only the one-row file. -/
def oneRowFileSystem : FileSystem :=
  fun p => if p = "data/f1.feather" then some oneRowDataFile else none

example : parse_timeframe "1h" = some 3600 := by decide
example : ymdToEpochSeconds 1970 1 1 = 0 := by decide
example : ymdToEpochSeconds 2024 1 1 = 1704067200 := by decide
example : parse_date_range "19700101-19700101" = some (0, 86399) := by decide
example : calculate_expected_candles 0 86399 "1h" = some 24 := by decide
example : find_gaps [0, 3600, 18000] "1h" 2 = some [(3600, 18000, 3)] := by decide
example : find_gaps [36000, 0] "1h" 2 = some [(0, 36000, 9)] := by decide

example :
    parse_log_line "2024-01-01 10:00:00,123 - freqtrade.misc - INFO - ok".toList =
      some ⟨⟨2024, 1, 1, 10, 0, 0, 123⟩, "INFO".toList, "freqtrade.misc".toList,
        "ok".toList⟩ := by decide

example :
    summaryEntryCount
      (process_docker_output "" "2024-01-01 10:00:00,123 - a - ERROR - bad") = 1 := by
  decide

example :
    summaryEntryCount
      (process_docker_output "" "2024-01-01 10:00:00,123 - a - INFO - fine") = 0 := by
  decide

example : (parsedEntries "" "2024-01-01 10:00:00,123 - a - INFO - fine").length = 1 := by
  decide

/-! ## Helper lemmas -/

/-- Every duration in the timeframe table is positive. -/
theorem parse_timeframe_pos {tf : String} {d : Int}
    (h : parse_timeframe tf = some d) : 0 < d := by
  simp only [parse_timeframe, TIMEFRAME_MAP, List.lookup] at h
  repeat' split at h
  all_goals simp_all
  all_goals omega

/-- Duplicate detection is a search for an equal key. -/
theorem is_duplicate_eq_true_iff (e : LogEntry) (seen : List LogEntry) :
    is_duplicate e seen = true ↔ ∃ y ∈ seen, entryKey y = entryKey e := by
  simp [is_duplicate, entryKey, List.any_eq_true, Prod.mk.injEq, and_assoc]

/-- Negative duplicate detection: every seen key differs. -/
theorem is_duplicate_eq_false_iff (e : LogEntry) (seen : List LogEntry) :
    is_duplicate e seen = false ↔ ∀ y ∈ seen, entryKey y ≠ entryKey e := by
  rw [Bool.eq_false_iff, ne_eq, is_duplicate_eq_true_iff]
  push_neg
  rfl

/-- A non-duplicate against a longer seen list is a non-duplicate against
its first part. -/
theorem is_duplicate_append_eq_false {x : LogEntry} {s1 s2 : List LogEntry}
    (h : is_duplicate x (s1 ++ s2) = false) : is_duplicate x s1 = false := by
  rw [is_duplicate_eq_false_iff] at h ⊢
  intro y hy
  exact h y (List.mem_append_left _ hy)

/-- Every entry the deduplication keeps is a non-duplicate of the seen
list it was checked against. -/
theorem mem_dedupSeen_not_dup {x : LogEntry} :
    ∀ (l seen : List LogEntry), x ∈ dedupSeen seen l →
      is_duplicate x seen = false := by
  intro l
  induction l with
  | nil => intro seen h; simp [dedupSeen] at h
  | cons e rest ih =>
    intro seen h
    simp only [dedupSeen] at h
    split at h
    · exact ih seen h
    · rcases List.mem_cons.mp h with rfl | hmem
      · simpa using ‹¬ is_duplicate x seen = true›
      · exact is_duplicate_append_eq_false (ih (seen ++ [e]) hmem)

/-- The deduplicated list has pairwise distinct keys. -/
theorem dedupSeen_pairwise :
    ∀ (l seen : List LogEntry),
      (dedupSeen seen l).Pairwise (fun a b => entryKey a ≠ entryKey b) := by
  intro l
  induction l with
  | nil => intro seen; simp [dedupSeen]
  | cons e rest ih =>
    intro seen
    simp only [dedupSeen]
    split
    · exact ih seen
    · refine List.Pairwise.cons ?_ (ih (seen ++ [e]))
      intro b hb
      have := (is_duplicate_eq_false_iff b _).mp
        (mem_dedupSeen_not_dup rest (seen ++ [e]) hb)
      exact this e (by simp)

/-- Deduplication never lengthens a list. -/
theorem dedupSeen_length_le :
    ∀ (l seen : List LogEntry), (dedupSeen seen l).length ≤ l.length := by
  intro l
  induction l with
  | nil => intro seen; simp [dedupSeen]
  | cons e rest ih =>
    intro seen
    simp only [dedupSeen]
    split
    · exact Nat.le_succ_of_le (ih seen)
    · simpa using ih (seen ++ [e])

/-- An entry in the warnings class is not in the errors class. -/
theorem isErrEntry_eq_false_of_warn {e : LogEntry} (hw : isWarnEntry e = true) :
    isErrEntry e = false := by
  have hw' : containsSub WARNING_MARK e.level = true := hw
  simp [isErrEntry, hw']

/-- The warnings and errors buckets capture disjoint entry classes. -/
theorem filter_warn_err_length_le (l : List LogEntry) :
    (l.filter isWarnEntry).length + (l.filter isErrEntry).length ≤ l.length := by
  induction l with
  | nil => simp
  | cons e rest ih =>
    by_cases hw : isWarnEntry e
    · have he := isErrEntry_eq_false_of_warn hw
      simp only [List.filter_cons, hw, if_pos, he, Bool.false_eq_true,
        if_false, List.length_cons]
      omega
    · rw [Bool.not_eq_true] at hw
      by_cases he : isErrEntry e
      · simp only [List.filter_cons, hw, he, if_pos, Bool.false_eq_true,
          if_false, List.length_cons]
        omega
      · rw [Bool.not_eq_true] at he
        simp only [List.filter_cons, hw, he, Bool.false_eq_true, if_false,
          List.length_cons]
        omega

/-- `_process_entry` on a duplicate warning entry: no change. -/
theorem process_entry_warn_dup {s : DockerLogSummary} {e : LogEntry}
    (hw : isWarnEntry e = true) (hd : is_duplicate e s.warnings = true) :
    process_entry s e = s := by
  have hw' : containsSub WARNING_MARK e.level = true := hw
  simp [process_entry, hw', hd]

/-- `_process_entry` on a fresh warning entry: append and count. -/
theorem process_entry_warn_new {s : DockerLogSummary} {e : LogEntry}
    (hw : isWarnEntry e = true) (hd : is_duplicate e s.warnings = false) :
    process_entry s e =
      { s with warnings := s.warnings ++ [e],
               total_warnings := s.total_warnings + 1 } := by
  have hw' : containsSub WARNING_MARK e.level = true := hw
  simp [process_entry, hw', hd]

/-- `_process_entry` on a duplicate error entry: no change. -/
theorem process_entry_err_dup {s : DockerLogSummary} {e : LogEntry}
    (he : isErrEntry e = true) (hd : is_duplicate e s.errors = true) :
    process_entry s e = s := by
  have h := he
  simp only [isErrEntry, Bool.and_eq_true, Bool.not_eq_true'] at h
  simp [process_entry, h.1, h.2, hd]

/-- `_process_entry` on a fresh error entry: append and count. -/
theorem process_entry_err_new {s : DockerLogSummary} {e : LogEntry}
    (he : isErrEntry e = true) (hd : is_duplicate e s.errors = false) :
    process_entry s e =
      { s with errors := s.errors ++ [e],
               total_errors := s.total_errors + 1 } := by
  have h := he
  simp only [isErrEntry, Bool.and_eq_true, Bool.not_eq_true'] at h
  simp [process_entry, h.1, h.2, hd]

/-- `_process_entry` on an entry of any other severity: no change. -/
theorem process_entry_other {s : DockerLogSummary} {e : LogEntry}
    (hw : isWarnEntry e = false) (he : isErrEntry e = false) :
    process_entry s e = s := by
  have hw' : containsSub WARNING_MARK e.level = false := hw
  have he' : containsSub ERROR_MARK e.level = false := by
    simp only [isErrEntry, hw', Bool.not_false, Bool.true_and] at he
    exact he
  simp [process_entry, hw', he']

/-- What one pass of `_process_entry` over an entry stream produces, for an
arbitrary starting summary: each severity bucket is extended with the
deduplicated entries of its class, and each counter advances by exactly the
number of retained entries. -/
theorem foldl_process_entry (l : List LogEntry) :
    ∀ s : DockerLogSummary,
      (l.foldl process_entry s).warnings =
        s.warnings ++ dedupSeen s.warnings (l.filter isWarnEntry) ∧
      (l.foldl process_entry s).errors =
        s.errors ++ dedupSeen s.errors (l.filter isErrEntry) ∧
      (l.foldl process_entry s).total_warnings =
        s.total_warnings + (dedupSeen s.warnings (l.filter isWarnEntry)).length ∧
      (l.foldl process_entry s).total_errors =
        s.total_errors + (dedupSeen s.errors (l.filter isErrEntry)).length := by
  induction l with
  | nil => intro s; simp [dedupSeen]
  | cons e rest ih =>
    intro s
    simp only [List.foldl_cons, List.filter_cons]
    by_cases hw : isWarnEntry e
    · have he := isErrEntry_eq_false_of_warn hw
      simp only [hw, if_pos, he, Bool.false_eq_true, if_false]
      by_cases hdup : is_duplicate e s.warnings
      · rw [process_entry_warn_dup hw hdup]
        simpa only [dedupSeen, hdup, if_pos] using ih s
      · rw [Bool.not_eq_true] at hdup
        rw [process_entry_warn_new hw hdup]
        obtain ⟨h1, h2, h3, h4⟩ :=
          ih { s with warnings := s.warnings ++ [e],
                      total_warnings := s.total_warnings + 1 }
        refine ⟨?_, ?_, ?_, ?_⟩
        · rw [h1]
          simp [dedupSeen, hdup]
        · rw [h2]
        · rw [h3]
          simp only [dedupSeen, hdup, Bool.false_eq_true, if_false,
            List.length_cons]
          omega
        · rw [h4]
    · rw [Bool.not_eq_true] at hw
      by_cases he : isErrEntry e
      · simp only [hw, Bool.false_eq_true, if_false, he, if_pos]
        by_cases hdup : is_duplicate e s.errors
        · rw [process_entry_err_dup he hdup]
          simpa only [dedupSeen, hdup, if_pos] using ih s
        · rw [Bool.not_eq_true] at hdup
          rw [process_entry_err_new he hdup]
          obtain ⟨h1, h2, h3, h4⟩ :=
            ih { s with errors := s.errors ++ [e],
                        total_errors := s.total_errors + 1 }
          refine ⟨?_, ?_, ?_, ?_⟩
          · rw [h1]
          · rw [h2]
            simp [dedupSeen, hdup]
          · rw [h3]
          · rw [h4]
            simp only [dedupSeen, hdup, Bool.false_eq_true, if_false,
              List.length_cons]
            omega
      · rw [Bool.not_eq_true] at he
        simp only [hw, he, Bool.false_eq_true, if_false]
        rw [process_entry_other hw he]
        exact ih s

/-! ## Claim C10 — deduplicated buckets and consistent counters -/

/-- C10: a summary produced by `process_docker_output` never holds two
warning entries, nor two error entries, with the same
(timestamp, component, message) key — a re-encountered line is dropped and
does not advance the counter — so `total_warnings` and `total_errors`
always equal the lengths of the deduplicated lists. -/
theorem c10_no_duplicate_entries_counters_consistent (stderr stdout : String) :
    (process_docker_output stderr stdout).warnings.Pairwise
      (fun a b => entryKey a ≠ entryKey b) ∧
    (process_docker_output stderr stdout).errors.Pairwise
      (fun a b => entryKey a ≠ entryKey b) ∧
    (process_docker_output stderr stdout).total_warnings =
      (process_docker_output stderr stdout).warnings.length ∧
    (process_docker_output stderr stdout).total_errors =
      (process_docker_output stderr stdout).errors.length := by
  obtain ⟨h1, h2, h3, h4⟩ :=
    foldl_process_entry (parsedEntriesOf stderr ++ parsedEntriesOf stdout) {}
  rw [process_docker_output] at *
  refine ⟨?_, ?_, ?_, ?_⟩
  · rw [h1]
    simpa using dedupSeen_pairwise _ []
  · rw [h2]
    simpa using dedupSeen_pairwise _ []
  · rw [h3, h1]
    simp
  · rw [h4, h2]
    simp

/-! ## Claim C3 — parser totality and entry count -/

/-- C3 counterexample: the claim says a stream of N well-formed lines and M
malformed lines yields a summary with exactly N parsed entries.  A single
well-formed INFO line parses (N = 1, M = 0) but is retained in neither
bucket, so the summary holds 0 entries. -/
theorem c3_counterexample_info_line_not_counted :
    (parsedEntries "" "2024-01-01 10:00:00,123 - freqtrade.worker - INFO - started").length
        = 1 ∧
    summaryEntryCount
        (process_docker_output ""
          "2024-01-01 10:00:00,123 - freqtrade.worker - INFO - started") = 0 := by
  decide

/-- C3 amended: the parser is total (a malformed line is skipped in
isolation and never aborts the parse), and the summary holds exactly the
warning- and error-severity entries among the N parsed entries,
deduplicated by (timestamp, component, message) with the first occurrence
kept; entries of other severities are not retained, so the summary's entry
count is at most N. -/
theorem c3_summary_entries_dedup_filtered (stderr stdout : String) :
    (process_docker_output stderr stdout).warnings =
      dedupSeen [] ((parsedEntries stderr stdout).filter isWarnEntry) ∧
    (process_docker_output stderr stdout).errors =
      dedupSeen [] ((parsedEntries stderr stdout).filter isErrEntry) ∧
    summaryEntryCount (process_docker_output stderr stdout) ≤
      (parsedEntries stderr stdout).length := by
  obtain ⟨h1, h2, _, _⟩ :=
    foldl_process_entry (parsedEntriesOf stderr ++ parsedEntriesOf stdout) {}
  have hw : (process_docker_output stderr stdout).warnings =
      dedupSeen [] ((parsedEntries stderr stdout).filter isWarnEntry) := by
    rw [process_docker_output, parsedEntries]
    simpa using h1
  have he : (process_docker_output stderr stdout).errors =
      dedupSeen [] ((parsedEntries stderr stdout).filter isErrEntry) := by
    rw [process_docker_output, parsedEntries]
    simpa using h2
  refine ⟨hw, he, ?_⟩
  rw [summaryEntryCount, hw, he]
  calc (dedupSeen [] ((parsedEntries stderr stdout).filter isWarnEntry)).length +
        (dedupSeen [] ((parsedEntries stderr stdout).filter isErrEntry)).length
      ≤ ((parsedEntries stderr stdout).filter isWarnEntry).length +
        ((parsedEntries stderr stdout).filter isErrEntry).length := by
        exact Nat.add_le_add (dedupSeen_length_le _ []) (dedupSeen_length_le _ [])
    _ ≤ (parsedEntries stderr stdout).length :=
        filter_warn_err_length_le _

/-! ## Claim C7 — gateway cleanup on both paths -/

/-- C7: for every gateway invocation — whether the container run returns or
raises — `run_docker_command` parses the attached log artifact and then
deletes it before returning the summary or raising (the structured error or
the `IndexError`). -/
theorem c7_parse_then_delete_both_paths
    (runResult : DockerRunResult) (parsed : LogSummary) :
    (run_docker_command runResult parsed).1 =
      [FsAction.parseLogFile, FsAction.removeLogFile] := by
  cases runResult <;> rfl

/-! ## Claim C1 — missing result-dump message (code bug) -/

/-- C1: the claim says a backtest whose container run raises nothing but
whose log summary holds no `freqtrade.misc` "dumping json to" entry must
mark the job `failed`.  The code instead returns `None` from `run_backtest`
without raising, and `run_backtest_task` then writes status `finished` with
a `None` results payload: evaluated here on a concrete error-free summary
with no dump entry. -/
theorem c1_missing_result_message_marks_job_finished :
    run_backtest true true .ok noDumpSummary false = .completed none ∧
    run_backtest_task true true true
        (run_backtest true true .ok noDumpSummary false) =
      ⟨["downloading_data", "running", "finished"], .successEnvelope, some none⟩ ∧
    (run_backtest_task true true true
        (run_backtest true true .ok noDumpSummary false)).statuses.getLastD "" ≠
      "failed" := by
  refine ⟨rfl, rfl, ?_⟩
  decide

/-! ## Claim C2 — structured error message on failure (code bug) -/

/-- C2: the claim says a failed invocation with an error-free parsed log
raises the structured error with a generic fallback message.  The code
instead evaluates `log_summary.errors[0]` unconditionally, so on an empty
error list the gateway raises `IndexError` rather than the structured
error; with a nonempty error list the structured error does carry the first
entry's `name: message`. -/
theorem c2_failure_with_error_free_log_raises_index_error :
    (run_docker_command (.fail (-1) "" "") ⟨[], [], [], 0, 0⟩).2 =
      .indexError ∧
    (run_docker_command (.fail (-1) "" "") oneErrorSummary).2 =
      .structuredError "freqtrade.commands: Config validation failed" (-1) := by
  exact ⟨rfl, rfl⟩

/-! ## Claim C6 — find_gaps sorts its input -/

/-- C6 counterexample: the claim says the gap scan runs over the series in
caller order.  On the unsorted series `[36000, 0]` the caller-order scan
(`gapScan` applied to the series as given) reports nothing, but `find_gaps`
sorts first and reports the gap. -/
theorem c6_counterexample_unsorted_input_is_sorted :
    find_gaps [36000, 0] "1h" 2 ≠
      (parse_timeframe "1h").map (fun i => gapScan i 2 [36000, 0]) := by
  decide

/-- C6 amended: `find_gaps` sorts (a copy of) its series by timestamp
before scanning, so its result is invariant under permutation of the input
series; pre-sorting is not the caller's responsibility (and the caller's
list object is not mutated). -/
theorem c6_find_gaps_permutation_invariant
    (l₁ l₂ : List Int) (tf : String) (mg : Int) (hperm : l₁.Perm l₂) :
    find_gaps l₁ tf mg = find_gaps l₂ tf mg := by
  have h1 : List.Sorted (fun a b : Int => a ≤ b) (sortDates l₁) :=
    List.sorted_insertionSort _ l₁
  have h2 : List.Sorted (fun a b : Int => a ≤ b) (sortDates l₂) :=
    List.sorted_insertionSort _ l₂
  have hp : (sortDates l₁).Perm (sortDates l₂) :=
    ((List.perm_insertionSort _ l₁).trans hperm).trans
      (List.perm_insertionSort _ l₂).symm
  have hsort : sortDates l₁ = sortDates l₂ :=
    List.eq_of_perm_of_sorted hp h1 h2
  simp only [find_gaps, hsort]

/-- C6 witness: the permutation invariance evaluated on a concrete
unsorted series and its sorted permutation. -/
theorem c6_witness :
    find_gaps [7200, 0] "1h" 2 = find_gaps [0, 7200] "1h" 2 :=
  c6_find_gaps_permutation_invariant [7200, 0] [0, 7200] "1h" 2 (by decide)

/-! ## Claim C5 — gap reporting rule -/

/-- C5 counterexample: with `minGapSize = 0` and a sorted series whose
consecutive delta equals the duration, the spec's rule
`floor(delta/duration) - 1 >= minGapSize` predicts a reported triple, but
the code additionally requires `delta > duration` and reports nothing. -/
theorem c5_counterexample_min_gap_zero :
    sortDates [0, 3600] = [0, 3600] ∧
    find_gaps [0, 3600] "1h" 0 ≠ some (claimGapTriples 3600 0 [0, 3600]) := by
  decide

/-- On a sorted series, with a positive duration and `min_gap_size ≥ 1`,
the code's scan (guarded by `diff > interval`) agrees with the spec's
`floor(delta/duration) - 1 ≥ minGapSize` rule: the guard is implied by the
rule once at least one missing candle is demanded. -/
theorem gapScan_eq_claimGapTriples (dur mg : Int) (hdur : 0 < dur) (hmg : 1 ≤ mg) :
    ∀ dates : List Int, dates.Sorted (· ≤ ·) →
      gapScan dur mg dates = claimGapTriples dur mg dates
  | [] , _ => rfl
  | [_], _ => rfl
  | a :: b :: rest, h => by
    have hab : a ≤ b := (List.sorted_cons.mp h).1 b (by simp)
    have htail : (b :: rest).Sorted (· ≤ ·) := (List.sorted_cons.mp h).2
    have ih := gapScan_eq_claimGapTriples dur mg hdur hmg (b :: rest) htail
    have hD : 0 ≤ b - a := by omega
    have htd : Int.tdiv (b - a) dur = (b - a) / dur :=
      Int.tdiv_eq_ediv hD (le_of_lt hdur)
    have hfd : Int.fdiv (b - a) dur = (b - a) / dur :=
      Int.fdiv_eq_ediv _ (le_of_lt hdur)
    simp only [gapScan, claimGapTriples]
    by_cases hrep : Int.fdiv (b - a) dur - 1 ≥ mg
    · have hE2 : 2 ≤ (b - a) / dur := by rw [hfd] at hrep; omega
      have hge : 2 * dur ≤ b - a := (Int.le_ediv_iff_mul_le hdur).mp hE2
      have hgt : b - a > dur := by omega
      rw [if_pos hgt, if_pos (by rw [htd, ← hfd]; exact hrep), if_pos hrep, ih,
        htd, ← hfd]
    · rw [if_neg hrep]
      by_cases hgt : b - a > dur
      · rw [if_pos hgt, if_neg (by rw [htd, ← hfd]; exact hrep), ih]
      · rw [if_neg hgt, ih]

/-- C5 amended: for every sorted timestamp series, valid timeframe and
`minGapSize ≥ 1`, `find_gaps` reports a `(gapStart, gapEnd, missingCount)`
triple for a consecutive pair iff `floor(delta/duration) - 1 ≥ minGapSize`,
and the reported triples appear in series order; in particular a
single-missing-candle gap with `minGapSize = 2` is not reported. -/
theorem c5_gap_report_characterization
    (dates : List Int) (tf : String) (dur mg : Int)
    (hdur : parse_timeframe tf = some dur) (hmg : 1 ≤ mg)
    (hsorted : dates.Sorted (· ≤ ·)) :
    find_gaps dates tf mg = some (claimGapTriples dur mg dates) := by
  have hpos : 0 < dur := parse_timeframe_pos hdur
  have hfix : sortDates dates = dates := List.Sorted.insertionSort_eq hsorted
  simp only [find_gaps, hdur, Option.map_some, hfix]
  exact congrArg some (gapScan_eq_claimGapTriples dur mg hpos hmg dates hsorted)

/-! ## Verifier helper lemmas -/

/-- Bind reduction for `Except` on a successful first step. -/
theorem except_bind_ok {ε α β : Type} (a : α) (f : α → Except ε β) :
    ((Except.ok a : Except ε α) >>= f) = f a := rfl

/-- Bind reduction for `Except` on a failed first step. -/
theorem except_bind_error {ε α β : Type} (e : ε) (f : α → Except ε β) :
    ((Except.error e : Except ε α) >>= f) = .error e := rfl

/-- The file-existence loop partitions the manifest: accumulated missing
relative paths in manifest order, and accumulated verified full paths. -/
theorem filesExistenceLoop_spec (fs : FileSystem) (base : String) :
    ∀ (rest missing verified : List String),
      filesExistenceLoop fs base rest missing verified =
        (missing ++ rest.filter (fun f => !(fs (joinPath base f)).isSome),
         verified ++
           (rest.filter (fun f => (fs (joinPath base f)).isSome)).map
             (joinPath base)) := by
  intro rest
  induction rest with
  | nil => intro missing verified; simp [filesExistenceLoop]
  | cons f r ih =>
    intro missing verified
    by_cases hf : (fs (joinPath base f)).isSome
    · simp only [filesExistenceLoop, hf, if_pos, List.filter_cons,
        Bool.not_true, Bool.false_eq_true, if_false, List.map_cons]
      rw [ih]
      simp
    · rw [Bool.not_eq_true] at hf
      simp only [filesExistenceLoop, hf, Bool.false_eq_true, if_false,
        List.filter_cons, Bool.not_false, if_pos]
      rw [ih]
      simp

/-- When every manifest file is on disk, the existence check returns every
full path, in manifest order. -/
theorem verify_files_existence_all_present (fs : FileSystem) (base : String)
    (expected : List String)
    (h : ∀ f ∈ expected, (fs (joinPath base f)).isSome = true) :
    verify_files_existence fs base expected =
      .ok (expected.map (joinPath base)) := by
  have habs : expected.filter (fun g => !(fs (joinPath base g)).isSome) = [] :=
    List.filter_eq_nil_iff.mpr (fun a ha => by simp [h a ha])
  have hpres : expected.filter (fun g => (fs (joinPath base g)).isSome) = expected :=
    List.filter_eq_self.mpr h
  rw [verify_files_existence, filesExistenceLoop_spec, habs, hpres]
  simp

/-- When some manifest file is absent, the existence check raises one
`FileVerificationError` carrying every absent path. -/
theorem verify_files_existence_missing (fs : FileSystem) (base : String)
    (expected : List String) (f : String) (hf : f ∈ expected)
    (hmiss : fs (joinPath base f) = none) :
    verify_files_existence fs base expected =
      .error (.fileVerificationError "Some expected files are missing"
        (expected.filter (fun g => !(fs (joinPath base g)).isSome))) := by
  have hmem : f ∈ expected.filter (fun g => !(fs (joinPath base g)).isSome) :=
    List.mem_filter.mpr ⟨hf, by simp [hmiss]⟩
  rw [verify_files_existence, filesExistenceLoop_spec]
  simp only [List.nil_append]
  cases hfa : expected.filter (fun g => !(fs (joinPath base g)).isSome) with
  | nil => rw [hfa] at hmem; simp at hmem
  | cons m ms => rfl

/-- A successful existence check covers the whole manifest. -/
theorem verify_files_existence_ok_mem (fs : FileSystem) (base : String)
    (expected verified : List String)
    (h : verify_files_existence fs base expected = .ok verified)
    (f : String) (hf : f ∈ expected) : joinPath base f ∈ verified := by
  rw [verify_files_existence, filesExistenceLoop_spec] at h
  simp only [List.nil_append] at h
  cases hfa : expected.filter (fun g => !(fs (joinPath base g)).isSome) with
  | cons m ms =>
    rw [hfa] at h
    exact absurd h (by simp)
  | nil =>
    rw [hfa] at h
    have hv : verified =
        (expected.filter (fun g => (fs (joinPath base g)).isSome)).map
          (joinPath base) := by
      cases h
      rfl
    have hpres : (fs (joinPath base f)).isSome = true := by
      by_contra hnp
      rw [Bool.not_eq_true] at hnp
      have hmem : f ∈ expected.filter (fun g => !(fs (joinPath base g)).isSome) :=
        List.mem_filter.mpr ⟨hf, by simp [hnp]⟩
      rw [hfa] at hmem
      simp at hmem
    subst hv
    exact List.mem_map.mpr ⟨f, List.mem_filter.mpr ⟨hf, hpres⟩, rfl⟩

/-! ## Claim C8 — batch missing-file failure -/

/-- C8: whenever the docker stage passes and at least one manifest file is
absent from disk, the existence check raises a single
`FileVerificationError` whose details list every missing path (not just the
first), and the overall verification result is a failure classified as
`FileVerificationError` — regardless of the contents of the files that are
present. -/
theorem c8_missing_files_batch_failure (fs : FileSystem) (base : String)
    (docker_result : Option LogSummary) (expected : List String)
    (date_range : Option String) (timeframes : Option (List String))
    (hdock : checkDockerStage docker_result = .ok ())
    (f : String) (hf : f ∈ expected) (hmiss : fs (joinPath base f) = none) :
    verify_files_existence fs base expected =
      .error (.fileVerificationError "Some expected files are missing"
        (expected.filter (fun g => !(fs (joinPath base g)).isSome))) ∧
    (verify_download fs base docker_result expected date_range
        timeframes).success = false ∧
    (verify_download fs base docker_result expected date_range
        timeframes).error_type = some "FileVerificationError" ∧
    (verify_download fs base docker_result expected date_range
        timeframes).verified_files = [] := by
  have hvfe := verify_files_existence_missing fs base expected f hf hmiss
  have hcore : verify_download_core fs base docker_result expected date_range
      timeframes =
      .error (.fileVerificationError "Some expected files are missing"
        (expected.filter (fun g => !(fs (joinPath base g)).isSome))) := by
    rw [verify_download_core, hdock, except_bind_ok, hvfe, except_bind_error]
  rw [verify_download, hcore]
  exact ⟨hvfe, rfl, rfl, rfl⟩

/-- C8 witness: evaluated with a two-file manifest of which only the first
file exists. -/
theorem c8_witness :
    (verify_download oneRowFileSystem "data" none
        ["f1.feather", "f2.feather"] none none).success = false ∧
    (verify_download oneRowFileSystem "data" none
        ["f1.feather", "f2.feather"] none none).error_type =
      some "FileVerificationError" :=
  ⟨(c8_missing_files_batch_failure oneRowFileSystem "data" none
      ["f1.feather", "f2.feather"] none none rfl "f2.feather"
      (by decide) (by decide)).2.1,
   (c8_missing_files_batch_failure oneRowFileSystem "data" none
      ["f1.feather", "f2.feather"] none none rfl "f2.feather"
      (by decide) (by decide)).2.2.1⟩

/-! ## Claim C9 — verification result invariant -/

/-- C9: every `VerificationResult` the verifier produces satisfies — a
failure carries an empty `verified_files` list, and a success carries every
manifest entry (as its full path) in `verified_files`. -/
theorem c9_verification_result_invariant (fs : FileSystem) (base : String)
    (docker_result : Option LogSummary) (expected : List String)
    (date_range : Option String) (timeframes : Option (List String)) :
    ((verify_download fs base docker_result expected date_range
        timeframes).success = false →
      (verify_download fs base docker_result expected date_range
        timeframes).verified_files = []) ∧
    ((verify_download fs base docker_result expected date_range
        timeframes).success = true →
      ∀ f ∈ expected,
        joinPath base f ∈
          (verify_download fs base docker_result expected date_range
            timeframes).verified_files) := by
  cases hcore : verify_download_core fs base docker_result expected
      date_range timeframes with
  | error e =>
    rw [verify_download, hcore]
    exact ⟨fun _ => rfl, fun h => absurd h (by simp)⟩
  | ok t =>
    obtain ⟨v, ri, w⟩ := t
    rw [verify_download, hcore]
    refine ⟨fun h => absurd h (by simp), fun _ f hf => ?_⟩
    have hvfe : verify_files_existence fs base expected = .ok v := by
      rw [verify_download_core] at hcore
      cases hd : checkDockerStage docker_result with
      | error e2 => rw [hd, except_bind_error] at hcore; exact absurd hcore (by simp)
      | ok u =>
        cases u
        rw [hd, except_bind_ok] at hcore
        cases hve : verify_files_existence fs base expected with
        | error e2 => rw [hve, except_bind_error] at hcore; exact absurd hcore (by simp)
        | ok verified =>
          rw [hve, except_bind_ok] at hcore
          cases hil : integrityLoop fs date_range timeframes verified with
          | error e2 =>
            rw [hil, except_bind_error] at hcore
            exact absurd hcore (by simp)
          | ok p =>
            obtain ⟨ri2, w2⟩ := p
            rw [hil, except_bind_ok] at hcore
            cases hcore
            rfl
    exact verify_files_existence_ok_mem fs base expected v hvfe f hf

/-- C9 witness: evaluated on a one-file manifest whose file exists with the
required columns and one row — a success whose verified list covers the
manifest. -/
theorem c9_witness :
    joinPath "data" "f1.feather" ∈
      (verify_download oneRowFileSystem "data" none ["f1.feather"]
        none none).verified_files :=
  (c9_verification_result_invariant oneRowFileSystem "data" none
    ["f1.feather"] none none).2 (by decide) "f1.feather" (by decide)

/-! ## Claim C4 — row-count shortfall is a hard failure -/

/-- C4: for a manifest file that exists with the required columns, a
matched timeframe and a supplied date range, a found-row count strictly
below `floor((end - start) / duration) + 1` makes `verify_date_range`
raise `DataIntegrityError`, and the overall verification result is a hard
failure classified as `DataIntegrityError` (not a warning). -/
theorem c4_undercount_is_hard_failure (fs : FileSystem) (base f dr tf : String)
    (docker_result : Option LogSummary) (df : DataFile) (s e d : Int)
    (hdock : checkDockerStage docker_result = .ok ())
    (hparse : parse_date_range dr = some (s, e))
    (htf : parse_timeframe tf = some d)
    (hse : s ≤ e)
    (hfs : fs (joinPath base f) = some df)
    (hne : df.dates.isEmpty = false)
    (hcols : REQUIRED_COLUMNS.all (fun c => df.columns.contains c) = true)
    (hmark : strContainsSub ("-" ++ tf ++ "-") (joinPath base f) = true)
    (hcount : (df.dates.length : Int) < Int.fdiv (e - s) d + 1) :
    (∃ msg, verify_date_range df.dates dr tf (joinPath base f) =
      .error (.dataIntegrityError msg)) ∧
    (verify_download fs base docker_result [f] (some dr)
        (some [tf])).success = false ∧
    (verify_download fs base docker_result [f] (some dr)
        (some [tf])).error_type = some "DataIntegrityError" := by
  have hd0 : 0 < d := parse_timeframe_pos htf
  have htdiv : Int.tdiv (e - s) d = Int.fdiv (e - s) d := by
    rw [Int.tdiv_eq_ediv (by omega) (le_of_lt hd0),
      Int.fdiv_eq_ediv _ (le_of_lt hd0)]
  have hcount' : (df.dates.length : Int) < Int.tdiv (e - s) d + 1 := by
    rw [htdiv]; exact hcount
  have hvdr : verify_date_range df.dates dr tf (joinPath base f) =
      .error (.dataIntegrityError ("Insufficient candles in " ++
        joinPath base f ++ ": expected " ++
        toString (Int.tdiv (e - s) d + 1) ++ " candles, found " ++
        toString (df.dates.length : Int))) := by
    rw [verify_date_range, hparse]
    simp only [calculate_expected_candles, htf, Option.map_some', hcount', if_true]
  have hvdi : verify_data_integrity fs (joinPath base f) (some dr) (some tf) =
      .error (.dataIntegrityError ("Insufficient candles in " ++
        joinPath base f ++ ": expected " ++
        toString (Int.tdiv (e - s) d + 1) ++ " candles, found " ++
        toString (df.dates.length : Int))) := by
    rw [verify_data_integrity]
    simp only [hfs, hne, Bool.false_eq_true, if_false, hcols, Bool.not_true,
      hvdr]
    rfl
  have hfind : [tf].find?
      (fun t => strContainsSub ("-" ++ t ++ "-") (joinPath base f)) = some tf := by
    simp [List.find?, hmark]
  have hloop : integrityLoop fs (some dr) (some [tf]) [joinPath base f] =
      .error (.dataIntegrityError ("Insufficient candles in " ++
        joinPath base f ++ ": expected " ++
        toString (Int.tdiv (e - s) d + 1) ++ " candles, found " ++
        toString (df.dates.length : Int))) := by
    simp only [integrityLoop, hfind, hvdi]
    rfl
  have hvfe : verify_files_existence fs base [f] = .ok [joinPath base f] := by
    have hall : ∀ g ∈ [f], (fs (joinPath base g)).isSome = true := by
      intro g hg
      rcases List.mem_singleton.mp hg with rfl
      simp [hfs]
    simpa using verify_files_existence_all_present fs base [f] hall
  have hcore : verify_download_core fs base docker_result [f] (some dr)
      (some [tf]) =
      .error (.dataIntegrityError ("Insufficient candles in " ++
        joinPath base f ++ ": expected " ++
        toString (Int.tdiv (e - s) d + 1) ++ " candles, found " ++
        toString (df.dates.length : Int))) := by
    rw [verify_download_core, hdock, except_bind_ok, hvfe, except_bind_ok,
      hloop, except_bind_error]
  rw [verify_download, hcore]
  exact ⟨⟨_, hvdr⟩, rfl, rfl⟩

/-- C4 witness: a one-day hourly range needs 24 candles; the concrete file
holds 20 rows, and the verification result is a `DataIntegrityError`
failure. -/
theorem c4_witness :
    (verify_download shortFileSystem "ft_userdata" none
        ["spot/BTC_USDT-1h-spot.feather"] (some "19700101-19700101")
        (some ["1h"])).success = false ∧
    (verify_download shortFileSystem "ft_userdata" none
        ["spot/BTC_USDT-1h-spot.feather"] (some "19700101-19700101")
        (some ["1h"])).error_type = some "DataIntegrityError" :=
  ⟨(c4_undercount_is_hard_failure shortFileSystem "ft_userdata"
      "spot/BTC_USDT-1h-spot.feather" "19700101-19700101" "1h" none
      shortDataFile 0 86399 3600 rfl (by decide) (by decide) (by decide)
      (by decide) (by decide) (by decide) (by decide) (by decide)).2.1,
   (c4_undercount_is_hard_failure shortFileSystem "ft_userdata"
      "spot/BTC_USDT-1h-spot.feather" "19700101-19700101" "1h" none
      shortDataFile 0 86399 3600 rfl (by decide) (by decide) (by decide)
      (by decide) (by decide) (by decide) (by decide) (by decide)).2.2⟩

/-- C5 witness: the characterization evaluated on a concrete sorted hourly
series with one three-candle gap. -/
theorem c5_witness :
    parse_timeframe "1h" = some 3600 ∧ (1 : Int) ≤ 2 ∧
    ([0, 3600, 18000] : List Int).Sorted (· ≤ ·) ∧
    find_gaps [0, 3600, 18000] "1h" 2 =
      some (claimGapTriples 3600 2 [0, 3600, 18000]) :=
  ⟨by decide, by decide, by decide,
    c5_gap_report_characterization [0, 3600, 18000] "1h" 3600 2
      (by decide) (by decide) (by decide)⟩

end GenTrade
